import Mathlib

/-!
Shallow embedding of the PortfolioRohitAkulwar backend (FastAPI, Python) and
proofs of the specification claims about it.

Source files embedded:
  backend/config/settings.py    — ALLOWED_ORIGINS parsing
  backend/models/database.py    — final_url (SSL-mode query-parameter logic)
  backend/services/resume.py    — ResumeService (_load / get_all)
  backend/services/openrouter.py — OpenRouterService (init, payload, chat)
  backend/routes/resume.py      — GET /resume handler
  backend/routes/chat.py        — POST /chat handler (validation, LLM call,
                                   best-effort chat_logs write)

Python machine model notes:
  * JSON documents are modelled by the inductive `Json` below.
  * The filesystem is a map from paths to optional parsed documents.
  * Exceptions are modelled with `Except`; the distinct Python exception
    classes that the code branches on become distinct constructors.
  * The outcome of the awaited external HTTP call (httpx) and of the
    database write (SQLAlchemy) are oracle inputs to the handler functions.
-/

/-- A JSON value, as produced by Python json.load / response.json(). -/
inductive Json where
  | null : Json
  | bool (b : Bool) : Json
  | num (n : Int) : Json
  | str (s : String) : Json
  | arr (elems : List Json) : Json
  | obj (fields : List (String × Json)) : Json

/-! ## String helpers mirroring the Python built-ins used by the source -/

/-- Python str.split for the one-character separator "," from settings.py:
keeps empty segments, and "".split gives one empty segment. -/
def splitOnComma : List Char → List (List Char)
  | [] => [[]]
  | c :: rest =>
    let r := splitOnComma rest
    if c = ',' then [] :: r
    else
      match r with
      | [] => [[c]]
      | s :: ss => (c :: s) :: ss

/-- Python str.strip with no argument: drop whitespace at both ends. -/
def pyStrip (cs : List Char) : List Char :=
  ((cs.dropWhile Char.isWhitespace).reverse.dropWhile Char.isWhitespace).reverse

/-- Check that the first list is a prefix of the second. -/
def listPrefixOf : List Char → List Char → Bool
  | [], _ => true
  | _ :: _, [] => false
  | a :: as, b :: bs => a = b && listPrefixOf as bs

/-- Check that the first list occurs contiguously inside the second. -/
def listInfixOf (needle : List Char) : List Char → Bool
  | [] => listPrefixOf needle []
  | b :: bs => listPrefixOf needle (b :: bs) || listInfixOf needle bs

/-- Python `needle in haystack` on strings (substring containment). -/
def strContainsSub (haystack needle : String) : Bool :=
  listInfixOf needle.toList haystack.toList

/-- Python str.startswith. -/
def pyStartsWith (s p : String) : Bool :=
  listPrefixOf p.toList s.toList

/-- Python str.lower (ASCII case folding suffices for the URLs involved). -/
def pyLower (s : String) : String :=
  String.mk (s.toList.map Char.toLower)

/-- Python str.strip on a String. -/
def pyStripStr (s : String) : String :=
  String.mk (pyStrip s.toList)

/-! ## config/settings.py -/

/-- ALLOWED_ORIGINS from settings.py:
`[o.strip() for o in _raw_origins.split(",")]`. -/
def parseAllowedOrigins (raw : String) : List String :=
  (splitOnComma raw.toList).map (fun o => String.mk (pyStrip o))

/-! ## models/database.py -/

/-- final_url from database.py:
```
_is_sqlite = DATABASE_URL.startswith("sqlite")
final_url = DATABASE_URL
if not _is_sqlite and "sslmode=" not in final_url.lower():
    separator = "&" if "?" in final_url else "?"
    final_url = f"{final_url}{separator}sslmode=require"
```
-/
def final_url (DATABASE_URL : String) : String :=
  let _is_sqlite := pyStartsWith DATABASE_URL "sqlite"
  if _is_sqlite then DATABASE_URL
  else if strContainsSub (pyLower DATABASE_URL) "sslmode=" then DATABASE_URL
  else
    let separator := if strContainsSub DATABASE_URL "?" then "&" else "?"
    DATABASE_URL ++ separator ++ "sslmode=require"

/-! ## services/resume.py -/

/-- Errors the resume store can raise. -/
inductive ResumeError where
  | fileNotFound (msg : String) : ResumeError

/-- In-memory resume store: the parsed document cached at construction. -/
structure ResumeService where
  _data : Json

/-- ResumeService._load: raises FileNotFoundError if the path does not
exist, otherwise parses the file.  The filesystem is a map from paths to
the parsed document at that path (`none` = no file). -/
def ResumeService._load (fs : String → Option Json) (path : String) :
    Except ResumeError Json :=
  match fs path with
  | none => .error (.fileNotFound ("resume.json not found at: " ++ path))
  | some doc => .ok doc

/-- ResumeService.__init__: load and cache the document. -/
def ResumeService.init (fs : String → Option Json) (path : String) :
    Except ResumeError ResumeService :=
  match ResumeService._load fs path with
  | .error e => .error e
  | .ok doc => .ok ⟨doc⟩

/-- ResumeService.get_all: return the cached full dictionary. -/
def ResumeService.get_all (svc : ResumeService) : Json :=
  svc._data

/-! ## routes/resume.py -/

/-- One full GET /resume request: FastAPI first resolves the
`get_resume_service` dependency (ResumeService construction — a raised
FileNotFoundError here is an unhandled exception which the framework turns
into a 500 response), then runs the handler body
`try: return resume_svc.get_all() except FileNotFoundError: raise
HTTPException(500)` (get_all on a constructed service cannot raise).
Result: (HTTP status, response document if any). -/
def serveResumeRequest (fs : String → Option Json) (path : String) :
    Nat × Option Json :=
  match ResumeService.init fs path with
  | .error _ => (500, none)
  | .ok svc => (200, some svc.get_all)

/-! ## services/openrouter.py -/

/-- The fixed system prompt template (_SYSTEM_PROMPT_TEMPLATE), with the
two placeholders interpolated as Python str.format does. -/
def systemPromptTemplate (name resume_text : String) : String :=
  "You are an AI assistant embedded in " ++ name ++
    "\x27s personal portfolio website.\n" ++
  "Your sole purpose is to warmly and professionally answer visitors\x27 " ++
    "questions about " ++ name ++ ".\n" ++
  "\n" ++
  "CRITICAL RULES:\n" ++
  "1. NO FOURTH WALL BREAKS: NEVER mention your data sources. NEVER use " ++
    "words like \"JSON\", \"ai_context\", \"fields\", \"resume\", " ++
    "\"portfolio\", \"context\", or \"data\".\n" ++
  "2. NO ATTRIBUTIONS: NEVER start a sentence with \"According to...\", " ++
    "\"Based on...\", \"His profile says...\", or \"I can see that...\". " ++
    "Speak directly and confidently. Act as if you naturally know this " ++
    "information firsthand because you work with him.\n" ++
  "3. USE INSIDER KNOWLEDGE: Read all the provided information carefully. " ++
    "You have insider knowledge about his hobbies (like and gaming), his " ++
    "work style, and his behind-the-scenes project thoughts. Use this " ++
    "information natively and conversationally.\n" ++
  "4. When a visitor asks about his hobbies, DO NOT say they aren\x27t " ++
    "listed. Look at the provided background knowledge and talk about them!\n" ++
  "5. THE PIVOT RULE: If a user asks a question that is TRULY not covered " ++
    "in the data below, gracefully pivot. Tell them you don\x27t have that " ++
    "specific detail, but highly encourage them to reach out to " ++ name ++
    " via the contact section to chat about it.\n" ++
  "6. Do not reveal that you are an AI unless directly asked. Keep answers " ++
    "concise, friendly, and engaging.\n" ++
  "\n" ++
  "--- PORTFOLIO & BACKGROUND KNOWLEDGE ---\n" ++
  resume_text ++ "\n"

/-- The LLM client's state after construction. -/
structure OpenRouterService where
  _api_key : String
  _model : String
  _base_url : String
deriving DecidableEq

/-- OpenRouterService.__init__: `if not api_key: raise ValueError(...)`,
otherwise store key, model and base URL.  Python `not s` on a str is true
exactly for the empty string. -/
def OpenRouterService.init (api_key model base_url : String) :
    Except String OpenRouterService :=
  if api_key = "" then
    .error ("OPENROUTER_API_KEY is not set. " ++
      "Copy .env.example to .env and add your key.")
  else
    .ok ⟨api_key, model, base_url⟩

/-- OpenRouterService._build_system_prompt: single format call on the
fixed template. -/
def OpenRouterService._build_system_prompt (_svc : OpenRouterService)
    (resume_text candidate_name : String) : String :=
  systemPromptTemplate candidate_name resume_text

/-- One role-tagged message of the Chat Completions body. -/
structure ChatMessage where
  role : String
  content : String
deriving DecidableEq

/-- The Chat Completions request body built by _build_payload. -/
structure ChatPayload where
  model : String
  messages : List ChatMessage
  max_tokens : Nat
  temperature : ℚ
deriving DecidableEq

/-- OpenRouterService._build_payload. -/
def OpenRouterService._build_payload (svc : OpenRouterService)
    (system_prompt user_message : String) : ChatPayload :=
  { model := svc._model
    messages := [⟨"system", system_prompt⟩, ⟨"user", user_message⟩]
    max_tokens := 512
    temperature := (6 : ℚ) / 10 }

/-- Python exceptions raised by subscripting / attribute access during
reply extraction. -/
inductive PyLookupExc where
  | keyError
  | indexError
  | typeError
  | attributeError
deriving DecidableEq

/-- Python `j["k"]` with a string key. -/
def Json.pyGetKey : Json → String → Except PyLookupExc Json
  | .obj fields, k =>
    match fields.lookup k with
    | some v => .ok v
    | none => .error .keyError
  | .arr _, _ => .error .typeError
  | .str _, _ => .error .typeError
  | .null, _ => .error .typeError
  | .bool _, _ => .error .typeError
  | .num _, _ => .error .typeError

/-- Python `j[i]` with an integer index.  A JSON object (str-keyed dict)
subscripted with an int raises KeyError; a str yields the one-character
substring or IndexError; everything else raises TypeError. -/
def Json.pyGetIdx : Json → Nat → Except PyLookupExc Json
  | .arr xs, i =>
    match xs.get? i with
    | some v => .ok v
    | none => .error .indexError
  | .obj _, _ => .error .keyError
  | .str s, i =>
    match s.toList.get? i with
    | some c => .ok (.str (String.mk [c]))
    | none => .error .indexError
  | .null, _ => .error .typeError
  | .bool _, _ => .error .typeError
  | .num _, _ => .error .typeError

/-- The extraction `data["choices"][0]["message"]["content"]` followed by
`.strip()` (a non-str content has no strip attribute). -/
def extractReplyContent (data : Json) : Except PyLookupExc String := do
  let choices ← data.pyGetKey "choices"
  let first ← choices.pyGetIdx 0
  let msg ← first.pyGetKey "message"
  let content ← msg.pyGetKey "content"
  match content with
  | .str s => .ok s
  | _ => .error .attributeError

/-- Failures OpenRouterService.chat can raise. -/
inductive LLMFailure where
  | httpStatusError (status : Nat)
  | valueError (data : Json)
  | uncaught (e : PyLookupExc)

/-- The upstream HTTP response (status and parsed JSON body). -/
structure HttpResponse where
  status : Nat
  body : Json

/-- What one call of OpenRouterService.chat did: the payload it sent and
the outcome it produced. -/
structure ChatCallTrace where
  sentPayload : ChatPayload
  result : Except LLMFailure String

/-- OpenRouterService.chat, with the upstream response as oracle input:
build the system prompt and payload, send; raise_for_status raises
HTTPStatusError unless the status is a 2xx success; then extract the
reply, catching KeyError/IndexError into ValueError ("malformed
response"); other exceptions propagate unchanged. -/
def OpenRouterService.chat (svc : OpenRouterService)
    (user_message resume_text candidate_name : String)
    (resp : HttpResponse) : ChatCallTrace :=
  let system_prompt := svc._build_system_prompt resume_text candidate_name
  let payload := svc._build_payload system_prompt user_message
  if 200 ≤ resp.status ∧ resp.status ≤ 299 then
    match extractReplyContent resp.body with
    | .ok s => ⟨payload, .ok (pyStripStr s)⟩
    | .error .keyError => ⟨payload, .error (.valueError resp.body)⟩
    | .error .indexError => ⟨payload, .error (.valueError resp.body)⟩
    | .error e => ⟨payload, .error (.uncaught e)⟩
  else
    ⟨payload, .error (.httpStatusError resp.status)⟩

/-! ## uuid.uuid4 (Python standard library, used by ChatRequest's
session_id default_factory) -/

/-- Lowercase hex digit character for a value below 16: digits map to
'0'..'9' (code points from 48), letters to 'a'..'f' (code points from
97). -/
def hexDigitChar (n : Nat) : Char :=
  if n < 10 then Char.ofNat (48 + n)
  else if n < 16 then Char.ofNat (87 + n)
  else '0'

/-- Whether a character is a lowercase hex digit. -/
def isHexDigitChar (c : Char) : Bool :=
  ('0' ≤ c && c ≤ '9') || ('a' ≤ c && c ≤ 'f')

/-- Two lowercase hex characters of a byte value. -/
def byteHexChars (b : Nat) : List Char :=
  [hexDigitChar (b / 16 % 16), hexDigitChar (b % 16)]

/-- Modelled from the Python standard library: str(uuid.uuid4()) built
from the sixteen random bytes uuid4 draws.  uuid4 forces the version
nibble of byte 6 to 4 ((b AND 0x0f) OR 0x40, i.e. 64 + b mod 16) and the
variant bits of byte 8 to 10 ((b AND 0x3f) OR 0x80, i.e. 128 + b mod 64),
then renders 32 lowercase hex digits in 8-4-4-4-12 groups. -/
def uuid4Chars (bytes : List Nat) : List Char :=
  let B := fun i => (bytes.getD i 0) % 256
  byteHexChars (B 0) ++ byteHexChars (B 1) ++ byteHexChars (B 2) ++
    byteHexChars (B 3) ++
  ['-'] ++ byteHexChars (B 4) ++ byteHexChars (B 5) ++
  ['-'] ++ byteHexChars (64 + B 6 % 16) ++ byteHexChars (B 7) ++
  ['-'] ++ byteHexChars (128 + B 8 % 64) ++ byteHexChars (B 9) ++
  ['-'] ++ byteHexChars (B 10) ++ byteHexChars (B 11) ++
    byteHexChars (B 12) ++ byteHexChars (B 13) ++ byteHexChars (B 14) ++
    byteHexChars (B 15)

/-- str(uuid.uuid4()) as a String. -/
def uuid4String (bytes : List Nat) : String := String.mk (uuid4Chars bytes)

/-- A syntactically valid canonical version-4 UUID string: 36 characters,
hyphens at positions 8, 13, 18 and 23, lowercase hex elsewhere, version
digit 4, variant digit in 8/9/a/b. -/
def isValidUUIDv4Chars : List Char → Bool
  | u1 :: u2 :: u3 :: u4 :: u5 :: u6 :: u7 :: u8 :: v1 ::
    w1 :: w2 :: w3 :: w4 :: v2 ::
    y1 :: y2 :: y3 :: y4 :: v3 ::
    z1 :: z2 :: z3 :: z4 :: v4 ::
    t1 :: t2 :: t3 :: t4 :: t5 :: t6 :: t7 :: t8 :: t9 :: t10 :: t11 ::
    t12 :: [] =>
    v1 == '-' && v2 == '-' && v3 == '-' && v4 == '-' &&
    ([u1, u2, u3, u4, u5, u6, u7, u8, w1, w2, w3, w4, y2, y3, y4,
      z2, z3, z4, t1, t2, t3, t4, t5, t6, t7, t8, t9, t10, t11, t12].all
      isHexDigitChar) &&
    y1 == '4' &&
    (z1 == '8' || z1 == '9' || z1 == 'a' || z1 == 'b')
  | _ => false

/-- Validity of a UUID string. -/
def isValidUUIDv4 (s : String) : Bool := isValidUUIDv4Chars s.toList

/-! ## routes/chat.py -/

/-- The validated body of POST /api/chat. -/
structure ChatRequest where
  message : String
  session_id : String
deriving DecidableEq

/-- Pydantic validation of the raw body: message is required with length
in [1, 2000] code points; session_id defaults (default_factory) to the
freshly generated uuid4 string when omitted. -/
def validateChatRequest (rawMessage rawSessionId : Option String)
    (generated : String) : Option ChatRequest :=
  match rawMessage with
  | none => none
  | some m =>
    if 1 ≤ m.length ∧ m.length ≤ 2000 then
      some { message := m, session_id := rawSessionId.getD generated }
    else none

/-- One row of the chat_logs table (the server-assigned id and timestamp
are left to the database). -/
structure ChatLogRow where
  session_id : String
  user_message : String
  ai_response : String
deriving DecidableEq

/-- Outcome of the SQLAlchemy insert/commit: success, or a raised
SQLAlchemyError (the class the handler's except clause catches; SQLAlchemy
wraps driver-level persistence failures in it). -/
inductive DbOutcome where
  | ok
  | sqlAlchemyError
deriving DecidableEq

/-- Observable outcome of one POST /api/chat request: HTTP status,
response fields, which services ran, the rows the sink was invoked with,
and the rows actually persisted. -/
structure ChatRouteResult where
  status : Nat
  reply : Option String
  resp_session_id : Option String
  resumeInvoked : Bool
  llmInvoked : Bool
  sinkInserts : List ChatLogRow
  persisted : List ChatLogRow
deriving DecidableEq

/-- One full POST /api/chat request.  Pydantic validation runs first; a
rejected body gets FastAPI's 422 validation response and the handler never
runs.  Otherwise the handler runs its steps in order: (1) resume_svc
.get_all(), candidate name and the raw JSON dump — these feed only the LLM
call, whose awaited outcome is the llmOutcome oracle; (2) on any exception
from the LLM call, raise HTTPException 502 (steps 3 and 4 never run); (3)
insert into chat_logs, catching SQLAlchemyError silently; (4) return
ChatResponse(reply, session_id). -/
def chatPipeline (rawMessage rawSessionId : Option String)
    (randomBytes : List Nat) (llmOutcome : Except LLMFailure String)
    (db : DbOutcome) : ChatRouteResult :=
  match validateChatRequest rawMessage rawSessionId (uuid4String randomBytes) with
  | none =>
    { status := 422, reply := none, resp_session_id := none,
      resumeInvoked := false, llmInvoked := false,
      sinkInserts := [], persisted := [] }
  | some body =>
    match llmOutcome with
    | .error _ =>
      { status := 502, reply := none, resp_session_id := none,
        resumeInvoked := true, llmInvoked := true,
        sinkInserts := [], persisted := [] }
    | .ok reply =>
      let row : ChatLogRow := ⟨body.session_id, body.message, reply⟩
      { status := 200, reply := some reply,
        resp_session_id := some body.session_id,
        resumeInvoked := true, llmInvoked := true,
        sinkInserts := [row],
        persisted := match db with | .ok => [row] | .sqlAlchemyError => [] }

/-! ## Shared helper lemmas -/

/-- Every character hexDigitChar produces is one of the sixteen lowercase
hex digits. -/
theorem hexDigitChar_mem (n : Nat) :
    isHexDigitChar (hexDigitChar n) = true := by
  by_cases h : n < 16
  · interval_cases n <;> decide
  · have h10 : ¬ n < 10 := by omega
    simp [hexDigitChar, h, h10]
    decide

/-- The character list str(uuid.uuid4()) renders is a syntactically valid
canonical version-4 UUID, whatever the sixteen random bytes were. -/
theorem uuid4Chars_valid (bs : List Nat) :
    isValidUUIDv4Chars (uuid4Chars bs) = true := by
  have hv : (64 + bs.getD 6 0 % 256 % 16) / 16 % 16 = 4 := by omega
  have hr : (128 + bs.getD 8 0 % 256 % 64) / 16 % 16 =
      8 + bs.getD 8 0 % 256 % 64 / 16 := by omega
  simp only [uuid4Chars, byteHexChars, List.cons_append, List.nil_append]
  simp only [isValidUUIDv4Chars, List.all_cons, List.all_nil, hexDigitChar_mem,
    Bool.and_true, Bool.true_and, Bool.and_eq_true, beq_iff_eq]
  refine ⟨⟨by simp, ?_⟩, ?_⟩
  · rw [hv]
    decide
  · rw [hr]
    have hk : bs.getD 8 0 % 256 % 64 / 16 = 0 ∨ bs.getD 8 0 % 256 % 64 / 16 = 1 ∨
        bs.getD 8 0 % 256 % 64 / 16 = 2 ∨ bs.getD 8 0 % 256 % 64 / 16 = 3 := by
      omega
    rcases hk with h | h | h | h <;> rw [h] <;> decide

/-- String-level version of uuid4Chars_valid. -/
theorem uuid4String_isValid (bs : List Nat) :
    isValidUUIDv4 (uuid4String bs) = true :=
  uuid4Chars_valid bs

/-! ## Claim theorems -/

/-- C4: for every resume document successfully parsed from the configured
path, GET /resume returns exactly that parsed JSON value — a round trip
with no filtering, omission or transformation. -/
theorem resume_roundtrip (fs : String → Option Json) (path : String)
    (doc : Json) (h : fs path = some doc) :
    serveResumeRequest fs path = (200, some doc) := by
  simp [serveResumeRequest, ResumeService.init, ResumeService._load, h,
    ResumeService.get_all]

/-- Witness for C4 at a concrete filesystem and document. -/
theorem resume_roundtrip_witness :
    (fun p => if p = "backend/data/resume.json" then
        some (Json.obj [("personal", Json.obj [("name", Json.str "Rohit")]),
          ("ai_context", Json.str "hidden")]) else none)
        "backend/data/resume.json" =
      some (Json.obj [("personal", Json.obj [("name", Json.str "Rohit")]),
        ("ai_context", Json.str "hidden")]) ∧
    serveResumeRequest
      (fun p => if p = "backend/data/resume.json" then
        some (Json.obj [("personal", Json.obj [("name", Json.str "Rohit")]),
          ("ai_context", Json.str "hidden")]) else none)
      "backend/data/resume.json" =
      (200, some (Json.obj [("personal", Json.obj [("name", Json.str "Rohit")]),
        ("ai_context", Json.str "hidden")])) :=
  ⟨rfl, resume_roundtrip _ _ _ rfl⟩

/-- C5: if the resume file does not exist at the configured path, the
store fails with a not-found error and GET /resume answers with a
500-class response carrying no document; the request pipeline still
produces a response (the process does not crash). -/
theorem resume_missing_500 (fs : String → Option Json) (path : String)
    (h : fs path = none) :
    ResumeService._load fs path =
      .error (.fileNotFound ("resume.json not found at: " ++ path)) ∧
    serveResumeRequest fs path = (500, none) := by
  constructor <;>
    simp [ResumeService._load, serveResumeRequest, ResumeService.init, h]

/-- Witness for C5 at the empty filesystem. -/
theorem resume_missing_500_witness :
    ((fun _ => none : String → Option Json) "backend/data/resume.json" =
      none) ∧
    ResumeService._load (fun _ => none) "backend/data/resume.json" =
      .error (.fileNotFound
        ("resume.json not found at: " ++ "backend/data/resume.json")) ∧
    serveResumeRequest (fun _ => none) "backend/data/resume.json" =
      (500, none) :=
  ⟨rfl, resume_missing_500 (fun _ => none) "backend/data/resume.json" rfl⟩

/-- C6: constructing the LLM client with an empty API key fails with the
configuration ValueError (no network activity is modelled in
construction); with a non-empty key it succeeds and stores the key, the
model identifier and the base URL. -/
theorem openrouter_init_spec (api_key model base_url : String) :
    (api_key = "" →
      OpenRouterService.init api_key model base_url =
        .error ("OPENROUTER_API_KEY is not set. " ++
          "Copy .env.example to .env and add your key.")) ∧
    (api_key ≠ "" →
      OpenRouterService.init api_key model base_url =
        .ok ⟨api_key, model, base_url⟩) := by
  constructor <;> intro h <;> simp [OpenRouterService.init, h]

/-- Witness for C6 at an empty and a non-empty key. -/
theorem openrouter_init_spec_witness :
    OpenRouterService.init "" "deepseek/deepseek-r1:free"
        "https://openrouter.ai/api/v1" =
      .error ("OPENROUTER_API_KEY is not set. " ++
        "Copy .env.example to .env and add your key.") ∧
    OpenRouterService.init "sk-or-key" "deepseek/deepseek-r1:free"
        "https://openrouter.ai/api/v1" =
      .ok ⟨"sk-or-key", "deepseek/deepseek-r1:free",
        "https://openrouter.ai/api/v1"⟩ :=
  ⟨(openrouter_init_spec "" "deepseek/deepseek-r1:free"
      "https://openrouter.ai/api/v1").1 rfl,
   (openrouter_init_spec "sk-or-key" "deepseek/deepseek-r1:free"
      "https://openrouter.ai/api/v1").2 (by decide)⟩

/-- C9 counterexample: the claim says empty segments are excluded after
trimming, but the loader keeps them — a trailing comma yields an
empty-string origin in the allow-list. -/
theorem allowed_origins_empty_kept_cex :
    parseAllowedOrigins "http://localhost:5173," =
      ["http://localhost:5173", ""] ∧
    "" ∈ parseAllowedOrigins "http://localhost:5173," := by
  decide

/-- C9 amended: the loader produces one origin per comma-separated
segment (no segment is dropped), each with surrounding whitespace
trimmed; empty segments are retained, so a trailing comma yields an
empty-string origin. -/
theorem allowed_origins_amended (raw : String) :
    (parseAllowedOrigins raw).length = (splitOnComma raw.toList).length ∧
    parseAllowedOrigins "http://localhost:5173, http://localhost:3000," =
      ["http://localhost:5173", "http://localhost:3000", ""] :=
  ⟨List.length_map _ _, by decide⟩

/-- C10: the engine URL is the database URL unchanged when it starts with
"sqlite" or already mentions sslmode (case-insensitively); otherwise
"sslmode=require" is appended with "&" when the URL already has a query
string and "?" otherwise. -/
theorem final_url_spec (url : String) :
    (pyStartsWith url "sqlite" = true → final_url url = url) ∧
    (pyStartsWith url "sqlite" = false →
      strContainsSub (pyLower url) "sslmode=" = true →
      final_url url = url) ∧
    (pyStartsWith url "sqlite" = false →
      strContainsSub (pyLower url) "sslmode=" = false →
      final_url url =
        url ++ (if strContainsSub url "?" then "&" else "?") ++
          "sslmode=require") := by
  refine ⟨fun h => ?_, fun h h2 => ?_, fun h h2 => ?_⟩
  · simp [final_url, h]
  · simp [final_url, h, h2]
  · simp [final_url, h, h2]

/-- Witness for C10 on a sqlite URL, a URL already carrying sslmode, a
bare URL and a URL with a query string. -/
theorem final_url_spec_witness :
    final_url "sqlite:///./portfolio.db" = "sqlite:///./portfolio.db" ∧
    final_url "postgresql://u@h/db?SSLMODE=verify" =
      "postgresql://u@h/db?SSLMODE=verify" ∧
    final_url "postgresql://u@h/db" =
      "postgresql://u@h/db" ++ "?" ++ "sslmode=require" ∧
    final_url "postgresql://u@h/db?x=1" =
      "postgresql://u@h/db?x=1" ++ "&" ++ "sslmode=require" :=
  ⟨(final_url_spec "sqlite:///./portfolio.db").1 (by decide),
   (final_url_spec "postgresql://u@h/db?SSLMODE=verify").2.1 (by decide)
     (by decide),
   by
     have h := (final_url_spec "postgresql://u@h/db").2.2 (by decide)
       (by decide)
     simpa using h,
   by
     have h := (final_url_spec "postgresql://u@h/db?x=1").2.2 (by decide)
       (by decide)
     simpa using h⟩

/-- C7: every chat call sends exactly the configured model, the
two-message list system-prompt-then-user-message (the fixed template
interpolated with candidate name and resume context), max_tokens 512 and
temperature 0.6; on a 2xx response with the expected nested path present
the trimmed first-choice message content is returned; a missing path
(KeyError/IndexError) yields the malformed-response ValueError, a
different failure from the upstream HTTPStatusError. -/
theorem openrouter_chat_spec (svc : OpenRouterService)
    (um rt cn : String) (resp : HttpResponse) :
    (svc.chat um rt cn resp).sentPayload =
      { model := svc._model
        messages := [⟨"system", systemPromptTemplate cn rt⟩, ⟨"user", um⟩]
        max_tokens := 512
        temperature := (6 : ℚ) / 10 } ∧
    (∀ s, 200 ≤ resp.status → resp.status ≤ 299 →
      extractReplyContent resp.body = .ok s →
      (svc.chat um rt cn resp).result = .ok (pyStripStr s)) ∧
    (200 ≤ resp.status → resp.status ≤ 299 →
      (extractReplyContent resp.body = .error .keyError ∨
       extractReplyContent resp.body = .error .indexError) →
      (svc.chat um rt cn resp).result = .error (.valueError resp.body) ∧
      ∀ st, (LLMFailure.valueError resp.body) ≠ .httpStatusError st) := by
  refine ⟨?_, ?_, ?_⟩
  · by_cases h : 200 ≤ resp.status ∧ resp.status ≤ 299
    · simp only [OpenRouterService.chat, OpenRouterService._build_payload,
        OpenRouterService._build_system_prompt, if_pos h]
      cases hex : extractReplyContent resp.body with
      | ok s => simp [hex]
      | error e => cases e <;> simp [hex]
    · simp only [OpenRouterService.chat, OpenRouterService._build_payload,
        OpenRouterService._build_system_prompt, if_neg h]
  · intro s h1 h2 hex
    simp [OpenRouterService.chat, if_pos (And.intro h1 h2), hex]
  · intro h1 h2 hex
    refine ⟨?_, fun st => by simp⟩
    rcases hex with hex | hex <;>
      simp [OpenRouterService.chat, if_pos (And.intro h1 h2), hex]

/-- Witness for C7: a 200 response with the expected shape yields the
trimmed reply; a 200 response whose body is an empty object yields the
ValueError, which differs from every HTTPStatusError. -/
theorem openrouter_chat_spec_witness :
    (OpenRouterService.chat ⟨"sk-or-key", "deepseek/deepseek-r1:free",
        "https://openrouter.ai/api/v1"⟩ "What projects?" "ctx" "Rohit"
        ⟨200, Json.obj [("choices", Json.arr [Json.obj [("message",
          Json.obj [("content", Json.str "  Great projects.  ")])]])]⟩).result =
      .ok (pyStripStr "  Great projects.  ") ∧
    (OpenRouterService.chat ⟨"sk-or-key", "deepseek/deepseek-r1:free",
        "https://openrouter.ai/api/v1"⟩ "What projects?" "ctx" "Rohit"
        ⟨200, Json.obj []⟩).result =
      .error (.valueError (Json.obj [])) ∧
    ∀ st, (LLMFailure.valueError (Json.obj [])) ≠ .httpStatusError st :=
  ⟨(openrouter_chat_spec ⟨"sk-or-key", "deepseek/deepseek-r1:free",
      "https://openrouter.ai/api/v1"⟩ "What projects?" "ctx" "Rohit"
      ⟨200, Json.obj [("choices", Json.arr [Json.obj [("message",
        Json.obj [("content", Json.str "  Great projects.  ")])]])]⟩).2.1
    "  Great projects.  " (by decide) (by decide) rfl,
   (openrouter_chat_spec ⟨"sk-or-key", "deepseek/deepseek-r1:free",
      "https://openrouter.ai/api/v1"⟩ "What projects?" "ctx" "Rohit"
      ⟨200, Json.obj []⟩).2.2 (by decide) (by decide) (Or.inl rfl)⟩

/-- C1 counterexample: with a valid message, an LLM failure and a healthy
database, the handler answers 502 and the chat log sink is never invoked
(sinkInserts is empty), contradicting the claim that the sink is still
invoked on the failed call. -/
theorem chat_llm_failure_cex :
    ¬ ((chatPipeline (some "Hello") none
          [31, 7, 250, 12, 99, 3, 214, 58, 141, 77, 5, 190, 23, 66, 8, 172]
          (.error (.httpStatusError 500)) .ok).status = 502 ∧
       (chatPipeline (some "Hello") none
          [31, 7, 250, 12, 99, 3, 214, 58, 141, 77, 5, 190, 23, 66, 8, 172]
          (.error (.httpStatusError 500)) .ok).sinkInserts ≠ [] ∧
       (chatPipeline (some "Hello") none
          [31, 7, 250, 12, 99, 3, 214, 58, 141, 77, 5, 190, 23, 66, 8, 172]
          (.error (.httpStatusError 500)) .ok).persisted = []) := by
  decide

/-- C1 amended: for every valid chat request whose LLM call fails, the
handler answers 502, the chat log sink is not invoked at all, and no row
is persisted to chat_logs. -/
theorem chat_llm_failure_502 (msg : String) (sid : Option String)
    (rb : List Nat) (e : LLMFailure) (db : DbOutcome)
    (h1 : 1 ≤ msg.length) (h2 : msg.length ≤ 2000) :
    (chatPipeline (some msg) sid rb (.error e) db).status = 502 ∧
    (chatPipeline (some msg) sid rb (.error e) db).sinkInserts = [] ∧
    (chatPipeline (some msg) sid rb (.error e) db).persisted = [] := by
  simp [chatPipeline, validateChatRequest, h1, h2]

/-- Witness for the amended C1 at a concrete failing request. -/
theorem chat_llm_failure_502_witness :
    1 ≤ ("Hello" : String).length ∧ ("Hello" : String).length ≤ 2000 ∧
    ((chatPipeline (some "Hello") none []
        (.error (.httpStatusError 503)) .ok).status = 502 ∧
      (chatPipeline (some "Hello") none []
        (.error (.httpStatusError 503)) .ok).sinkInserts = [] ∧
      (chatPipeline (some "Hello") none []
        (.error (.httpStatusError 503)) .ok).persisted = []) :=
  ⟨by decide, by decide,
   chat_llm_failure_502 "Hello" none [] (.httpStatusError 503) .ok
     (by decide) (by decide)⟩

/-- C2: when the LLM call succeeds and the chat-log write raises the
persistence failure the handler catches (SQLAlchemyError, the class
SQLAlchemy wraps driver failures in), POST /chat still answers 200 with
the correct reply and session identifier; nothing was persisted but the
failure never reaches the caller. -/
theorem chat_persistence_failure_invisible (msg : String)
    (sid : Option String) (rb : List Nat) (reply : String)
    (h1 : 1 ≤ msg.length) (h2 : msg.length ≤ 2000) :
    (chatPipeline (some msg) sid rb (.ok reply) .sqlAlchemyError).status =
      200 ∧
    (chatPipeline (some msg) sid rb (.ok reply) .sqlAlchemyError).reply =
      some reply ∧
    (chatPipeline (some msg) sid rb (.ok reply)
      .sqlAlchemyError).resp_session_id =
        some (sid.getD (uuid4String rb)) ∧
    (chatPipeline (some msg) sid rb (.ok reply)
      .sqlAlchemyError).persisted = [] := by
  simp [chatPipeline, validateChatRequest, h1, h2]

/-- Witness for C2 at a concrete request with a failing database. -/
theorem chat_persistence_failure_invisible_witness :
    1 ≤ ("Hi" : String).length ∧ ("Hi" : String).length ≤ 2000 ∧
    ((chatPipeline (some "Hi") (some "sess-1") [] (.ok "A reply")
        .sqlAlchemyError).status = 200 ∧
      (chatPipeline (some "Hi") (some "sess-1") [] (.ok "A reply")
        .sqlAlchemyError).reply = some "A reply" ∧
      (chatPipeline (some "Hi") (some "sess-1") [] (.ok "A reply")
        .sqlAlchemyError).resp_session_id =
          some ((some "sess-1").getD (uuid4String [])) ∧
      (chatPipeline (some "Hi") (some "sess-1") [] (.ok "A reply")
        .sqlAlchemyError).persisted = []) :=
  ⟨by decide, by decide,
   chat_persistence_failure_invisible "Hi" (some "sess-1") [] "A reply"
     (by decide) (by decide)⟩

/-- C3: for every valid chat request that succeeds, omitting session_id
makes the response carry the freshly generated uuid4 token, which is a
syntactically valid UUID for every draw of the sixteen random bytes;
supplying a session_id makes the response echo that exact string. -/
theorem chat_session_id_spec (msg : String) (rb : List Nat)
    (reply : String) (db : DbOutcome)
    (h1 : 1 ≤ msg.length) (h2 : msg.length ≤ 2000) :
    ((chatPipeline (some msg) none rb (.ok reply) db).resp_session_id =
        some (uuid4String rb) ∧
      isValidUUIDv4 (uuid4String rb) = true) ∧
    (∀ s : String,
      (chatPipeline (some msg) (some s) rb (.ok reply) db).resp_session_id =
        some s) := by
  refine ⟨⟨?_, uuid4String_isValid rb⟩, fun s => ?_⟩ <;>
    simp [chatPipeline, validateChatRequest, h1, h2]

/-- Witness for C3 at a concrete request, with and without session_id. -/
theorem chat_session_id_spec_witness :
    1 ≤ ("Hey" : String).length ∧ ("Hey" : String).length ≤ 2000 ∧
    (((chatPipeline (some "Hey") none
          [31, 7, 250, 12, 99, 3, 214, 58, 141, 77, 5, 190, 23, 66, 8, 172]
          (.ok "r") .ok).resp_session_id =
        some (uuid4String
          [31, 7, 250, 12, 99, 3, 214, 58, 141, 77, 5, 190, 23, 66, 8, 172]) ∧
      isValidUUIDv4 (uuid4String
        [31, 7, 250, 12, 99, 3, 214, 58, 141, 77, 5, 190, 23, 66, 8, 172]) = true) ∧
     ∀ s : String,
      (chatPipeline (some "Hey") (some s)
          [31, 7, 250, 12, 99, 3, 214, 58, 141, 77, 5, 190, 23, 66, 8, 172]
          (.ok "r") .ok).resp_session_id = some s) :=
  ⟨by decide, by decide,
   chat_session_id_spec "Hey"
     [31, 7, 250, 12, 99, 3, 214, 58, 141, 77, 5, 190, 23, 66, 8, 172] "r" .ok
     (by decide) (by decide)⟩

/-- C8: a message whose length is outside [1, 2000] — the empty string in
particular — is rejected by request validation with a 422 before any
service runs: the resume store, the LLM client and the chat log sink are
never invoked, and the status is not 502. -/
theorem chat_invalid_message_rejected (msg : String) (sid : Option String)
    (rb : List Nat) (llm : Except LLMFailure String) (db : DbOutcome)
    (h : ¬ (1 ≤ msg.length ∧ msg.length ≤ 2000)) :
    chatPipeline (some msg) sid rb llm db =
      { status := 422, reply := none, resp_session_id := none,
        resumeInvoked := false, llmInvoked := false,
        sinkInserts := [], persisted := [] } ∧
    (chatPipeline (some msg) sid rb llm db).status ≠ 502 := by
  constructor <;> simp [chatPipeline, validateChatRequest, h]

/-- Witness for C8 at the empty message. -/
theorem chat_invalid_message_rejected_witness :
    ¬ (1 ≤ ("" : String).length ∧ ("" : String).length ≤ 2000) ∧
    (chatPipeline (some "") none [] (.error (.httpStatusError 500)) .ok =
      { status := 422, reply := none, resp_session_id := none,
        resumeInvoked := false, llmInvoked := false,
        sinkInserts := [], persisted := [] } ∧
      (chatPipeline (some "") none []
        (.error (.httpStatusError 500)) .ok).status ≠ 502) :=
  ⟨by decide,
   chat_invalid_message_rejected "" none [] (.error (.httpStatusError 500))
     .ok (by decide)⟩
